import Mathlib

/-!
Shallow embedding of the SciEye MentraOS photo/voice-note app
(`src/index.ts`, `elevenLabsService.ts`, `notionService.ts`).

Per-user mutable maps (`Map<string, V>`) are modelled as functions
`String → Option V`; JavaScript truthiness of `map.get(u)` for boolean
maps is `(m u).getD false`.  Async handlers that suspend at an external
call (camera request, Notion call) are split into a `...Begin` phase
(everything before the `await`) and a `...Finish` phase (everything
after it resolves), with the external outcome passed in as an explicit
parameter.  External side effects (camera request, Notion persistence,
spoken audio) are recorded as an `Effect` list.
-/

/-- Map set: `m.set(k, v)` on a JavaScript `Map`. -/
def mapSet {α : Type} (m : String → Option α) (k : String) (v : α) :
    String → Option α :=
  fun q => if q = k then some v else m q

/-- Map delete: `m.delete(k)` on a JavaScript `Map`. -/
def mapDelete {α : Type} (m : String → Option α) (k : String) :
    String → Option α :=
  fun q => if q = k then none else m q

/-- Truthiness of `m.get(u)` for a `Map<string, boolean>`: `undefined`
and `false` are falsy, `true` is truthy. -/
def truthy (m : String → Option Bool) (u : String) : Bool :=
  (m u).getD false

/-- The `PhotoData` payload delivered by `session.camera.requestPhoto()`.
The binary buffer is abstracted as a list of bytes; `timestamp` is the
epoch-milliseconds value of `photo.timestamp.getTime()`. -/
structure PhotoData where
  requestId : String
  buffer : List Nat
  timestamp : Nat
  mimeType : String
  filename : String
  size : Nat
deriving DecidableEq, Repr

/-- The `StoredPhoto` record cached per user (src/index.ts lines 17-25). -/
structure StoredPhoto where
  requestId : String
  buffer : List Nat
  timestamp : Nat
  userId : String
  mimeType : String
  filename : String
  size : Nat
deriving DecidableEq, Repr

/-- The per-user mutable maps of `ExampleMentraOSApp`
(src/index.ts lines 44-54). -/
structure AppState where
  photos : String → Option StoredPhoto
  latestPhotoTimestamp : String → Option Nat
  isStreamingPhotos : String → Option Bool
  nextPhotoTime : String → Option Nat
  isRecordingNote : String → Option Bool
  noteBuffer : String → Option String
  pendingPhotoRequest : String → Option Bool

/-- External side effects of a handler, in the order they are issued. -/
inductive Effect where
  /-- `session.camera.requestPhoto()` was invoked. -/
  | cameraRequest
  /-- `saveToNotion(content)` was invoked (a paragraph append). -/
  | saveNote (content : String)
  /-- `saveImageToNotion(photo, title)` was invoked. -/
  | saveImage (title : Option String)
  /-- `talktoem(session, msg)` was invoked. -/
  | speak (msg : String)
deriving DecidableEq, Repr

/-- Sub-list search used to model JavaScript `String.prototype.includes`:
does `pat` occur at the start of `hay`? -/
def startsWithList : List Char → List Char → Bool
  | [], _ => true
  | _ :: _, [] => false
  | a :: as, b :: bs => a = b && startsWithList as bs

/-- Does `pat` occur contiguously anywhere in `hay`? -/
def containsList (pat : List Char) : List Char → Bool
  | [] => startsWithList pat []
  | c :: cs => startsWithList pat (c :: cs) || containsList pat cs

/-- JavaScript `s.includes(pat)`. -/
def strIncludes (s pat : String) : Bool :=
  containsList pat.data s.data

/-- JavaScript `s.trim()`: drop leading and trailing whitespace
(modelled over the characters the transcriptions use: space, tab,
carriage return, newline). -/
def jsTrim (s : String) : String :=
  String.mk
    (((s.data.dropWhile Char.isWhitespace).reverse.dropWhile
        Char.isWhitespace).reverse)

/-- JavaScript `s.toLowerCase()` (ASCII case mapping). -/
def jsToLower (s : String) : String :=
  String.mk (s.data.map Char.toLower)

/-- The `StoredPhoto` record built by `cachePhoto`
(src/index.ts lines 299-307). -/
def mkStoredPhoto (photo : PhotoData) (userId : String) : StoredPhoto :=
  { requestId := photo.requestId
    buffer := photo.buffer
    timestamp := photo.timestamp
    userId := userId
    mimeType := photo.mimeType
    filename := photo.filename
    size := photo.size }

/-- Cache a photo for display: `cachePhoto(photo, userId)`
(src/index.ts lines 297-319).  Builds the `StoredPhoto` record and
unconditionally overwrites the entries of `photos` and
`latestPhotoTimestamp` for that user. -/
def cachePhoto (st : AppState) (photo : PhotoData) (userId : String) :
    AppState :=
  { st with
    photos := mapSet st.photos userId (mkStoredPhoto photo userId)
    latestPhotoTimestamp :=
      mapSet st.latestPhotoTimestamp userId photo.timestamp }

/-- The `onDisconnected` handler (src/index.ts lines 160-175): force the
streaming, recording and pending flags to `false`, delete the note
buffer and the next-photo time. -/
def onDisconnected (st : AppState) (userId : String) : AppState :=
  { st with
    isStreamingPhotos := mapSet st.isStreamingPhotos userId false
    isRecordingNote := mapSet st.isRecordingNote userId false
    pendingPhotoRequest := mapSet st.pendingPhotoRequest userId false
    noteBuffer := mapDelete st.noteBuffer userId
    nextPhotoTime := mapDelete st.nextPhotoTime userId }

/-- The `onStop` handler (src/index.ts lines 275-292). -/
def onStop (st : AppState) (userId : String) : AppState :=
  { st with
    isStreamingPhotos := mapSet st.isStreamingPhotos userId false
    nextPhotoTime := mapDelete st.nextPhotoTime userId
    isRecordingNote := mapSet st.isRecordingNote userId false
    noteBuffer := mapDelete st.noteBuffer userId
    pendingPhotoRequest := mapSet st.pendingPhotoRequest userId false }

/-- Long button press (src/index.ts lines 197-205): toggle the
streaming flag (`!undefined` is `true` in JavaScript). -/
def onButtonPressLong (st : AppState) (userId : String) : AppState :=
  { st with
    isStreamingPhotos :=
      mapSet st.isStreamingPhotos userId
        (! truthy st.isStreamingPhotos userId) }

/-- `startVoiceNote(session, userId)` (src/index.ts lines 356-360). -/
def startVoiceNote (st : AppState) (userId : String) : AppState :=
  { st with
    isRecordingNote := mapSet st.isRecordingNote userId true
    noteBuffer := mapSet st.noteBuffer userId "" }

/-- `accumulateNoteText(userId, text)` (src/index.ts lines 365-373):
space-joined append to the note buffer. -/
def accumulateNoteText (st : AppState) (userId : String) (text : String) :
    AppState :=
  let currentBuffer := (st.noteBuffer userId).getD ""
  let updatedBuffer :=
    currentBuffer ++ (if currentBuffer ≠ "" then " " else "") ++ text
  { st with noteBuffer := mapSet st.noteBuffer userId updatedBuffer }

/-- The note text persisted by `saveVoiceNoteToNotion`
(src/index.ts lines 411-419), with the locale timestamp string passed
in as a parameter. -/
def formatVoiceNote (ts : String) (content : String) : String :=
  "📝 Voice Note (" ++ ts ++ ")\n\n" ++ content

/-- `endVoiceNote(session, userId)` (src/index.ts lines 378-406).
`saveOk` tells whether the awaited `saveVoiceNoteToNotion` call
succeeded; on a throw the `catch` block runs and the recording state is
never reset.  An empty (or whitespace-only) buffer returns early with
no external call. -/
def endVoiceNote (st : AppState) (userId : String) (saveOk : Bool)
    (ts : String) : AppState × List Effect :=
  let noteContent := (st.noteBuffer userId).getD ""
  if jsTrim noteContent = "" then
    (st, [])
  else if saveOk then
    ({ st with
       isRecordingNote := mapSet st.isRecordingNote userId false
       noteBuffer := mapSet st.noteBuffer userId "" },
     [Effect.saveNote (formatVoiceNote ts noteContent),
      Effect.speak "Got it"])
  else
    (st, [Effect.saveNote (formatVoiceNote ts noteContent)])

/-- `ElevenLabsService.talktoem` (elevenLabsService.ts lines 29-48),
reduced to the text actually sent to the synthesizer: `none` when the
message is empty or whitespace-only (warn and return, no synthesis, no
playback), otherwise the message truncated at 800 units with an
ellipsis marker appended. -/
def talktoem (message : String) : Option String :=
  if message = "" ∨ (jsTrim message).length = 0 then
    none
  else if message.length > 800 then
    some (String.mk (message.data.take 800) ++ "...")
  else
    some message

/-- Whether a character matches the JavaScript regex class `[a-zA-Z]`. -/
def isAsciiLetterChar (c : Char) : Bool :=
  (Char.ofNat 97 ≤ c && c ≤ Char.ofNat 122) ||
    (Char.ofNat 65 ≤ c && c ≤ Char.ofNat 90)

/-- The `processedTitle` computation inside `saveImageToNotion`
(notionService.ts lines 336-341): strip leading non-letters, capitalize
the first remaining letter, and add the "Title: " label. -/
def processedTitle (title : String) : String :=
  match title.data.dropWhile (fun c => ! isAsciiLetterChar c) with
  | [] => "Title: "
  | c :: rest => "Title: " ++ String.mk (c.toUpper :: rest)

/-- Phase of the short-press branch of `onButtonPress`
(src/index.ts lines 206-220) up to the `await
session.camera.requestPhoto()`: drop the request (`none`) when a photo
request is already pending for the user, otherwise set the pending flag
and issue the camera request. -/
def shortPressBegin (st : AppState) (userId : String) : Option AppState :=
  if truthy st.pendingPhotoRequest userId then
    none
  else
    some { st with
           pendingPhotoRequest := mapSet st.pendingPhotoRequest userId true }

/-- Phase of the short-press branch (src/index.ts lines 221-232) after
the camera promise settles: on success (`some photo`) log and cache the
photo, on failure log the error; the `finally` block always clears the
pending flag. -/
def shortPressFinish (st : AppState) (userId : String)
    (res : Option PhotoData) : AppState :=
  let st1 :=
    match res with
    | some photo => cachePhoto st photo userId
    | none => st
  { st1 with
    pendingPhotoRequest := mapSet st1.pendingPhotoRequest userId false }

/-- The whole short-press handler (src/index.ts lines 206-233),
composing the two phases; also returns the effects issued.  The
pending-drop early `return` sits inside the `try`, so it exits through
the `finally` (lines 229-232), which sets the pending flag to false
even on the dropped path. -/
def onButtonPressShort (st : AppState) (userId : String)
    (res : Option PhotoData) : AppState × List Effect :=
  match shortPressBegin st userId with
  | none =>
      ({ st with
         pendingPhotoRequest := mapSet st.pendingPhotoRequest userId false },
       [])
  | some st1 => (shortPressFinish st1 userId res, [Effect.cameraRequest])

/-- Outcome of the external calls awaited inside `takePhotoforNotion`:
`photo` is the camera result (`none` = the request threw), `notionOk`
tells whether `saveImageToNotion` succeeded. -/
structure CaptureOracle where
  photo : Option PhotoData
  notionOk : Bool
deriving DecidableEq, Repr

/-- Phase of `takePhotoforNotion` (src/index.ts lines 327-339) up to the
camera request: same pending-flag guard as the short-press branch. -/
def takePhotoNotionBegin (st : AppState) (userId : String) :
    Option AppState :=
  if truthy st.pendingPhotoRequest userId then
    none
  else
    some { st with
           pendingPhotoRequest := mapSet st.pendingPhotoRequest userId true }

/-- Phase of `takePhotoforNotion` (src/index.ts lines 341-350) after the
camera promise settles: on camera success cache the photo, then attempt
`saveImageToNotion` and, if it succeeded, speak the confirmation; any
throw lands in the `catch`; the `finally` always clears the pending
flag. -/
def takePhotoNotionFinish (st : AppState) (userId : String)
    (title : Option String) (cam : CaptureOracle) : AppState × List Effect :=
  match cam.photo with
  | none =>
      ({ st with
         pendingPhotoRequest := mapSet st.pendingPhotoRequest userId false },
       [])
  | some photo =>
      let st1 := cachePhoto st photo userId
      let st2 :=
        { st1 with
          pendingPhotoRequest := mapSet st1.pendingPhotoRequest userId false }
      if cam.notionOk then
        (st2, [Effect.saveImage title, Effect.speak "Photo saved to Notion!"])
      else
        (st2, [Effect.saveImage title])

/-- The whole `takePhotoforNotion` flow (src/index.ts lines 322-351).
As in the short-press handler, the pending-drop early `return` is
inside the `try` and exits through the `finally` (lines 347-350),
which clears the pending flag even on the dropped path. -/
def takePhotoforNotion (st : AppState) (userId : String)
    (title : Option String) (cam : CaptureOracle) : AppState × List Effect :=
  match takePhotoNotionBegin st userId with
  | none =>
      ({ st with
         pendingPhotoRequest := mapSet st.pendingPhotoRequest userId false },
       [])
  | some st1 =>
      let r := takePhotoNotionFinish st1 userId title cam
      (r.1, Effect.cameraRequest :: r.2)

/-- The outer condition of the streaming interval callback
(src/index.ts lines 238-241), checked before the `try` block is
entered: the user is in streaming mode and `now` is strictly past the
next-photo time. -/
def streamTickGate (st : AppState) (userId : String) (now : Nat) : Bool :=
  truthy st.isStreamingPhotos userId &&
    decide (now > (st.nextPhotoTime userId).getD 0)

/-- Phase of the streaming interval callback (src/index.ts lines
237-256) up to the camera request, at wall-clock time `now`: when the
outer gate passes and no request is pending, set the pending flag and
push the next-photo time 30 seconds forward as a fallback; `none` when
no capture is attempted this tick. -/
def streamTickBegin (st : AppState) (userId : String) (now : Nat) :
    Option AppState :=
  if streamTickGate st userId now then
    if truthy st.pendingPhotoRequest userId then
      none
    else
      some { st with
             pendingPhotoRequest :=
               mapSet st.pendingPhotoRequest userId true
             nextPhotoTime := mapSet st.nextPhotoTime userId (now + 30000) }
  else
    none

/-- Phase of the streaming interval callback (src/index.ts lines
258-270) after the camera promise settles at wall-clock time `now2`: on
success reset the next-photo time to `now2` and cache the photo, on
failure only log; the `finally` always clears the pending flag. -/
def streamTickFinish (st : AppState) (userId : String)
    (res : Option PhotoData) (now2 : Nat) : AppState :=
  match res with
  | some photo =>
      let st1 :=
        cachePhoto
          { st with nextPhotoTime := mapSet st.nextPhotoTime userId now2 }
          photo userId
      { st1 with
        pendingPhotoRequest := mapSet st1.pendingPhotoRequest userId false }
  | none =>
      { st with
        pendingPhotoRequest := mapSet st.pendingPhotoRequest userId false }

/-- One whole streaming timer tick (src/index.ts lines 237-272).  When
the outer gate fails the `try` is never entered and the tick is a
no-op; when the gate passes but a request is pending, the early
`return` inside the `try` exits through the `finally` (lines 267-270),
which clears the pending flag. -/
def streamTick (st : AppState) (userId : String) (now : Nat)
    (res : Option PhotoData) (now2 : Nat) : AppState × List Effect :=
  match streamTickBegin st userId now with
  | none =>
      if streamTickGate st userId now then
        ({ st with
           pendingPhotoRequest :=
             mapSet st.pendingPhotoRequest userId false },
         [])
      else
        (st, [])
  | some st1 => (streamTickFinish st1 userId res now2, [Effect.cameraRequest])

/-- Suffix after the first occurrence of `pat`, or `none` when `pat`
does not occur. -/
def afterFirstOccur (pat : List Char) : List Char → Option (List Char)
  | [] => if startsWithList pat [] then some [] else none
  | c :: cs =>
      if startsWithList pat (c :: cs) then some ((c :: cs).drop pat.length)
      else afterFirstOccur pat cs

/-- Title extraction of the "take photo" branch (src/index.ts lines
151-152): the JavaScript regex `take photo\s*(.+)` applied to the
lowercased trimmed text — everything after the first occurrence of
"take photo", leading whitespace dropped, must be non-empty, then
trimmed.  (The regex dot does not match newlines; transcribed
utterances are modelled as newline-free, for which this is exact.) -/
def extractTitle (spokenText : String) : Option String :=
  match afterFirstOccur ("take photo").data spokenText.data with
  | none => none
  | some tail =>
      let captured := tail.dropWhile Char.isWhitespace
      if captured = [] then none
      else some (jsTrim (String.mk captured))

/-- The body of the `onTranscription` handler for a final transcription
(src/index.ts lines 110-155).  `saveOk` is the outcome of a Notion note
append, `ts` the locale timestamp, `cam` the capture oracle for the
"take photo" branch. -/
def onTranscriptionFinal (st : AppState) (userId : String) (text : String)
    (saveOk : Bool) (ts : String) (cam : CaptureOracle) :
    AppState × List Effect :=
  let spokenText := jsTrim (jsToLower text)
  let originalText := jsTrim text
  if truthy st.isRecordingNote userId then
    if strIncludes spokenText "end note" ||
        strIncludes spokenText "endnote" ||
        strIncludes spokenText "stop note" then
      endVoiceNote st userId saveOk ts
    else
      (accumulateNoteText st userId originalText, [])
  else if strIncludes spokenText "start note" then
    (startVoiceNote st userId, [Effect.speak "Listening!"])
  else
    let greeting : List Effect :=
      if strIncludes spokenText "computer" then
        [Effect.speak "Hello World"]
      else []
    if strIncludes spokenText "take photo" then
      let r := takePhotoforNotion st userId (extractTitle spokenText) cam
      (r.1, greeting ++ r.2)
    else
      (st, greeting)

/-- The whole `onTranscription` handler (src/index.ts lines 105-157):
interim transcriptions (`isFinal = false`) return before touching any
state or issuing any call. -/
def onTranscription (st : AppState) (userId : String) (text : String)
    (isFinal : Bool) (saveOk : Bool) (ts : String) (cam : CaptureOracle) :
    AppState × List Effect :=
  if !isFinal then (st, [])
  else onTranscriptionFinal st userId text saveOk ts cam

/-- Response of `GET /api/latest-photo` (src/index.ts lines 465-484). -/
inductive LatestPhotoResponse where
  /-- 401 when the request carries no authenticated user id. -/
  | notAuthenticated
  /-- 404 when the user has no cached photo. -/
  | noPhoto
  /-- 200 with the JSON body fields. -/
  | ok (requestId : String) (timestamp : Nat) (hasPhoto : Bool)
deriving DecidableEq, Repr

/-- The `GET /api/latest-photo` handler (src/index.ts lines 465-484);
`authUserId` is `(req as AuthenticatedRequest).authUserId`, where both
`undefined` and the empty string are falsy. -/
def latestPhotoHandler (st : AppState) (authUserId : Option String) :
    LatestPhotoResponse :=
  if (authUserId.getD "") = "" then
    LatestPhotoResponse.notAuthenticated
  else
    match st.photos (authUserId.getD "") with
    | none => LatestPhotoResponse.noPhoto
    | some photo =>
        LatestPhotoResponse.ok photo.requestId photo.timestamp true

/-- Specification-side phrasing for claim C5: the title with all
leading non-letter characters stripped. -/
def stripLeadingNonLetters (s : String) : String :=
  String.mk (s.data.dropWhile (fun c => ! isAsciiLetterChar c))

/-- Specification-side phrasing for claim C5: capitalize the first
character (identity on the empty string). -/
def capitalizeFirst (s : String) : String :=
  match s.data with
  | [] => ""
  | c :: cs => String.mk (c.toUpper :: cs)

/-- A state in which every per-user map is empty, matching a fresh
`ExampleMentraOSApp` before any session. -/
def emptyState : AppState :=
  { photos := fun _ => none
    latestPhotoTimestamp := fun _ => none
    isStreamingPhotos := fun _ => none
    nextPhotoTime := fun _ => none
    isRecordingNote := fun _ => none
    noteBuffer := fun _ => none
    pendingPhotoRequest := fun _ => none }

/-- A state in which user "u" has a photo request pending. -/
def pendingState : AppState :=
  { emptyState with
    pendingPhotoRequest := mapSet emptyState.pendingPhotoRequest "u" true }

/-- A state in which user "u" is recording a note with buffer "hello". -/
def recordingState : AppState :=
  { emptyState with
    isRecordingNote := mapSet emptyState.isRecordingNote "u" true
    noteBuffer := mapSet emptyState.noteBuffer "u" "hello" }

/-- A state in which user "u" is recording a note with an empty
buffer. -/
def emptyBufferRecordingState : AppState :=
  { emptyState with
    isRecordingNote := mapSet emptyState.isRecordingNote "u" true
    noteBuffer := mapSet emptyState.noteBuffer "u" "" }

/-- A state in which user "u" is in streaming mode with no request
pending and the next photo scheduled at time 1000. -/
def streamEligibleState : AppState :=
  { emptyState with
    isStreamingPhotos := mapSet emptyState.isStreamingPhotos "u" true
    nextPhotoTime := mapSet emptyState.nextPhotoTime "u" 1000
    pendingPhotoRequest := mapSet emptyState.pendingPhotoRequest "u" false }

/-- Strings have length zero exactly when they are empty. -/
theorem string_length_eq_zero_iff (s : String) : s.length = 0 ↔ s = "" := by
  constructor
  · intro h
    cases s with
    | mk data =>
        cases data with
        | nil => rfl
        | cons c cs => simp [String.length] at h
  · intro h
    rw [h]
    rfl

/-- C5: for every supplied title, the persisted title paragraph is the
fixed "Title: " label followed by the title with leading non-letters
stripped and its first remaining letter capitalized; on the concrete
input " 42%%hello world" the result is "Title: Hello world". -/
theorem C5_title_processing (title : String) :
    processedTitle title =
      "Title: " ++ capitalizeFirst (stripLeadingNonLetters title) ∧
    processedTitle " 42%%hello world" = "Title: Hello world" := by
  constructor
  · unfold processedTitle capitalizeFirst stripLeadingNonLetters
    cases h : title.data.dropWhile (fun c => ! isAsciiLetterChar c) with
    | nil => simp [h]
    | cons c cs => simp [h]
  · decide

/-- C6: a transcription event with `isFinal = false` leaves the whole
application state unchanged and issues no external call of any kind. -/
theorem C6_interim_transcription_ignored (st : AppState)
    (userId text : String) (saveOk : Bool) (ts : String)
    (cam : CaptureOracle) :
    onTranscription st userId text false saveOk ts cam = (st, []) := rfl

/-- C7: ending a voice note while the accumulated buffer is empty or
whitespace-only performs no external persistence call (and in fact
changes nothing at all). -/
theorem C7_empty_note_no_persist (st : AppState) (userId : String)
    (saveOk : Bool) (ts : String)
    (h : jsTrim ((st.noteBuffer userId).getD "") = "") :
    endVoiceNote st userId saveOk ts = (st, []) := by
  unfold endVoiceNote
  simp [h]

/-- Concrete exercise of `C7_empty_note_no_persist` on a state whose
buffer for user "u" holds whitespace only. -/
theorem C7_empty_note_no_persist_witness :
    jsTrim ((emptyBufferRecordingState.noteBuffer "u").getD "") = "" ∧
    endVoiceNote emptyBufferRecordingState "u" true "now" =
      (emptyBufferRecordingState, []) :=
  ⟨by decide,
   C7_empty_note_no_persist emptyBufferRecordingState "u" true "now"
     (by decide)⟩

/-- C9: the speak operation is a no-op on empty or whitespace-only
text, synthesizes text of at most 800 units unchanged, and synthesizes
longer text as its first 800 units followed by an ellipsis marker. -/
theorem C9_speak_truncation (message : String) :
    (jsTrim message = "" → talktoem message = none) ∧
    (jsTrim message ≠ "" → 800 < message.length →
      ∃ t, talktoem message = some t ∧
        t.data = message.data.take 800 ++ ['.', '.', '.']) ∧
    (jsTrim message ≠ "" → message.length ≤ 800 →
      talktoem message = some message) := by
  refine ⟨?_, ?_, ?_⟩
  · intro h
    unfold talktoem
    have h0 : (jsTrim message).length = 0 := by rw [h]; rfl
    simp [h0]
  · intro h hl
    have hg : ¬(message = "" ∨ (jsTrim message).length = 0) := by
      rintro (rfl | h0)
      · exact h rfl
      · exact h ((string_length_eq_zero_iff (jsTrim message)).mp h0)
    refine ⟨String.mk (message.data.take 800) ++ "...", ?_, ?_⟩
    · unfold talktoem
      rw [if_neg hg, if_pos hl]
    · rfl
  · intro h hl
    have hg : ¬(message = "" ∨ (jsTrim message).length = 0) := by
      rintro (rfl | h0)
      · exact h rfl
      · exact h ((string_length_eq_zero_iff (jsTrim message)).mp h0)
    unfold talktoem
    rw [if_neg hg, if_neg (by omega)]

/-- Concrete exercise of `C9_speak_truncation` on the message "hi". -/
theorem C9_speak_truncation_witness :
    jsTrim "hi" ≠ "" ∧ ("hi" : String).length ≤ 800 ∧
    talktoem "hi" = some "hi" :=
  ⟨by decide, by decide,
   (C9_speak_truncation "hi").2.2 (by decide) (by decide)⟩

/-- C8: a disconnect event forces the streaming, recording and pending
flags of the disconnecting user to false and removes that user's note
buffer and next-photo-time entries, while every map entry of any other
user, and every cached photo, is left unchanged. -/
theorem C8_disconnect_resets (st : AppState) (u v : String) (hv : v ≠ u) :
    ((onDisconnected st u).isStreamingPhotos u = some false ∧
     (onDisconnected st u).isRecordingNote u = some false ∧
     (onDisconnected st u).pendingPhotoRequest u = some false ∧
     (onDisconnected st u).noteBuffer u = none ∧
     (onDisconnected st u).nextPhotoTime u = none) ∧
    ((onDisconnected st u).photos = st.photos ∧
     (onDisconnected st u).latestPhotoTimestamp = st.latestPhotoTimestamp) ∧
    ((onDisconnected st u).isStreamingPhotos v = st.isStreamingPhotos v ∧
     (onDisconnected st u).isRecordingNote v = st.isRecordingNote v ∧
     (onDisconnected st u).pendingPhotoRequest v = st.pendingPhotoRequest v ∧
     (onDisconnected st u).noteBuffer v = st.noteBuffer v ∧
     (onDisconnected st u).nextPhotoTime v = st.nextPhotoTime v) := by
  unfold onDisconnected mapSet mapDelete
  simp [hv]

/-- Concrete exercise of `C8_disconnect_resets`: user "a" disconnects,
user "b" is untouched. -/
theorem C8_disconnect_resets_witness :
    ("b" : String) ≠ "a" ∧
    (((onDisconnected emptyState "a").isStreamingPhotos "a" = some false ∧
      (onDisconnected emptyState "a").isRecordingNote "a" = some false ∧
      (onDisconnected emptyState "a").pendingPhotoRequest "a" = some false ∧
      (onDisconnected emptyState "a").noteBuffer "a" = none ∧
      (onDisconnected emptyState "a").nextPhotoTime "a" = none) ∧
     ((onDisconnected emptyState "a").photos = emptyState.photos ∧
      (onDisconnected emptyState "a").latestPhotoTimestamp =
        emptyState.latestPhotoTimestamp) ∧
     ((onDisconnected emptyState "a").isStreamingPhotos "b" =
        emptyState.isStreamingPhotos "b" ∧
      (onDisconnected emptyState "a").isRecordingNote "b" =
        emptyState.isRecordingNote "b" ∧
      (onDisconnected emptyState "a").pendingPhotoRequest "b" =
        emptyState.pendingPhotoRequest "b" ∧
      (onDisconnected emptyState "a").noteBuffer "b" =
        emptyState.noteBuffer "b" ∧
      (onDisconnected emptyState "a").nextPhotoTime "b" =
        emptyState.nextPhotoTime "b")) :=
  ⟨by decide, C8_disconnect_resets emptyState "a" "b" (by decide)⟩

/-- C3: storing a captured photo for a user unconditionally overwrites
that user's cached entry (and no other user's); the latest-photo lookup
returns the single current entry or reports absence; and no operation
other than a new capture changes any cached photo. -/
theorem C3_photo_cache_overwrite (st : AppState) (p : PhotoData)
    (u v txt ts : String) (saveOk : Bool) (now2 : Nat)
    (title : Option String) :
    ((cachePhoto st p u).photos u = some (mkStoredPhoto p u)) ∧
    (v ≠ u → (cachePhoto st p u).photos v = st.photos v) ∧
    (u ≠ "" → ∀ sp : StoredPhoto, st.photos u = some sp →
       latestPhotoHandler st (some u) =
         LatestPhotoResponse.ok sp.requestId sp.timestamp true) ∧
    (u ≠ "" → st.photos u = none →
       latestPhotoHandler st (some u) = LatestPhotoResponse.noPhoto) ∧
    ((onDisconnected st u).photos = st.photos) ∧
    ((onStop st u).photos = st.photos) ∧
    ((onButtonPressLong st u).photos = st.photos) ∧
    ((startVoiceNote st u).photos = st.photos) ∧
    ((accumulateNoteText st u txt).photos = st.photos) ∧
    ((endVoiceNote st u saveOk ts).1.photos = st.photos) ∧
    ((shortPressFinish st u none).photos = st.photos) ∧
    ((streamTickFinish st u none now2).photos = st.photos) ∧
    ((takePhotoNotionFinish st u title
        { photo := none, notionOk := saveOk }).1.photos = st.photos) ∧
    (∀ st1, shortPressBegin st u = some st1 → st1.photos = st.photos) ∧
    (∀ st1, takePhotoNotionBegin st u = some st1 → st1.photos = st.photos) ∧
    (∀ st1 now, streamTickBegin st u now = some st1 →
       st1.photos = st.photos) := by
  refine ⟨?_, ?_, ?_, ?_, rfl, rfl, rfl, rfl, rfl, ?_, rfl, rfl, rfl,
    ?_, ?_, ?_⟩
  · simp [cachePhoto, mapSet]
  · intro hvu
    simp [cachePhoto, mapSet, hvu]
  · intro hu sp hsp
    simp [latestPhotoHandler, hu, hsp]
  · intro hu hno
    simp [latestPhotoHandler, hu, hno]
  · unfold endVoiceNote
    by_cases hb : jsTrim ((st.noteBuffer u).getD "") = ""
    · simp [hb]
    · cases saveOk <;> simp [hb]
  · intro st1 h1
    unfold shortPressBegin at h1
    split at h1
    · exact absurd h1 (by simp)
    · cases h1
      rfl
  · intro st1 h1
    unfold takePhotoNotionBegin at h1
    split at h1
    · exact absurd h1 (by simp)
    · cases h1
      rfl
  · intro st1 now h1
    unfold streamTickBegin at h1
    split at h1
    · split at h1
      · exact absurd h1 (by simp)
      · cases h1
        rfl
    · exact absurd h1 (by simp)

/-- Concrete exercise of `C3_photo_cache_overwrite`: caching a photo
for user "a" replaces that user's entry and leaves user "b" alone. -/
theorem C3_photo_cache_overwrite_witness :
    (("b" : String) ≠ "a") ∧
    ((cachePhoto emptyState
        { requestId := "r1", buffer := [1], timestamp := 5,
          mimeType := "image/jpeg", filename := "f", size := 1 }
        "a").photos "a" =
      some (mkStoredPhoto
        { requestId := "r1", buffer := [1], timestamp := 5,
          mimeType := "image/jpeg", filename := "f", size := 1 } "a")) ∧
    ((cachePhoto emptyState
        { requestId := "r1", buffer := [1], timestamp := 5,
          mimeType := "image/jpeg", filename := "f", size := 1 }
        "a").photos "b" = emptyState.photos "b") ∧
    (("a" : String) ≠ "" ∧
      latestPhotoHandler emptyState (some "a") =
        LatestPhotoResponse.noPhoto) :=
  ⟨by decide,
   (C3_photo_cache_overwrite emptyState
      { requestId := "r1", buffer := [1], timestamp := 5,
        mimeType := "image/jpeg", filename := "f", size := 1 }
      "a" "b" "t" "ts" true 0 none).1,
   (C3_photo_cache_overwrite emptyState
      { requestId := "r1", buffer := [1], timestamp := 5,
        mimeType := "image/jpeg", filename := "f", size := 1 }
      "a" "b" "t" "ts" true 0 none).2.1 (by decide),
   ⟨by decide,
    (C3_photo_cache_overwrite emptyState
       { requestId := "r1", buffer := [1], timestamp := 5,
         mimeType := "image/jpeg", filename := "f", size := 1 }
       "a" "b" "t" "ts" true 0 none).2.2.2.1 (by decide) rfl⟩⟩

/-- C1: the claim is right and the code is wrong.  The pending-flag
guard and its early `return` sit inside the `try` block, and the
`finally` unconditionally sets the flag to false, so a dropped press
clears the in-flight flag that a still-unresolved capture had set.
Concretely, with a capture in flight for user "u": a second short
press issues no camera request but flips the flag to false, and a
third press during the same unresolved capture then passes the guard
and issues a second concurrent camera request — violating the
at-most-one-in-flight invariant.  The voice-triggered flow clears the
flag on its dropped path the same way. -/
theorem C1_mutex_violation :
    truthy pendingState.pendingPhotoRequest "u" = true ∧
    (onButtonPressShort pendingState "u" none).2 = [] ∧
    (onButtonPressShort pendingState "u" none).1.pendingPhotoRequest "u" =
      some false ∧
    (onButtonPressShort
        (onButtonPressShort pendingState "u" none).1 "u" none).2 =
      [Effect.cameraRequest] ∧
    (takePhotoforNotion pendingState "u" none
        { photo := none, notionOk := true }).2 = [] ∧
    (takePhotoforNotion pendingState "u" none
        { photo := none, notionOk := true }).1.pendingPhotoRequest "u" =
      some false := by
  refine ⟨by decide, by decide, by decide, by decide, by decide, by decide⟩

/-- Appending to the empty string is the identity. -/
theorem string_empty_append (s : String) : "" ++ s = s := by
  cases s with
  | mk d => rfl

/-- C4 as stated is false on the code: at a tick where streaming is
enabled, no capture is pending and now equals the next-eligible time
(so now ≥ next-eligible-time holds), the code compares with strict
inequality and makes no capture attempt. -/
theorem C4_claim_counterexample :
    truthy streamEligibleState.isStreamingPhotos "u" = true ∧
    1000 ≥ (streamEligibleState.nextPhotoTime "u").getD 0 ∧
    truthy streamEligibleState.pendingPhotoRequest "u" = false ∧
    streamTickBegin streamEligibleState "u" 1000 = none ∧
    streamTick streamEligibleState "u" 1000 none 1000 =
      (streamEligibleState, []) :=
  ⟨by decide, by decide, by decide, rfl, rfl⟩

/-- C4 (amended): on a timer tick a streaming capture is attempted
exactly when the streaming flag is true, now is strictly past the
next-eligible time, and no capture is in flight; when attempted the
in-flight flag is set and the next-eligible time pushed 30 seconds
forward before the camera request; on success the photo is cached and
the next-eligible time reset to the resolution time; the in-flight
flag is always cleared afterwards. -/
theorem C4_stream_tick_amended (st st2 : AppState) (u : String)
    (now now2 : Nat) (p : PhotoData) (res : Option PhotoData) :
    ((streamTickBegin st u now).isSome = true ↔
       (truthy st.isStreamingPhotos u = true ∧
        now > (st.nextPhotoTime u).getD 0 ∧
        truthy st.pendingPhotoRequest u = false)) ∧
    (streamTickGate st u now = false →
       streamTick st u now res now2 = (st, [])) ∧
    (streamTickGate st u now = true →
       truthy st.pendingPhotoRequest u = true →
       streamTick st u now res now2 =
         ({ st with
            pendingPhotoRequest :=
              mapSet st.pendingPhotoRequest u false },
          [])) ∧
    (∀ st1, streamTickBegin st u now = some st1 →
       st1.pendingPhotoRequest u = some true ∧
       st1.nextPhotoTime u = some (now + 30000) ∧
       streamTick st u now res now2 =
         (streamTickFinish st1 u res now2, [Effect.cameraRequest])) ∧
    ((streamTickFinish st2 u (some p) now2).photos u =
       some (mkStoredPhoto p u) ∧
     (streamTickFinish st2 u (some p) now2).nextPhotoTime u =
       some now2) ∧
    (streamTickFinish st2 u none now2 =
       { st2 with
         pendingPhotoRequest := mapSet st2.pendingPhotoRequest u false }) ∧
    ((streamTickFinish st2 u res now2).pendingPhotoRequest u =
       some false) := by
  refine ⟨?_, ?_, ?_, ?_, ?_, rfl, ?_⟩
  · cases hs : truthy st.isStreamingPhotos u <;>
      cases hp : truthy st.pendingPhotoRequest u <;>
      by_cases hn : now > (st.nextPhotoTime u).getD 0 <;>
      simp [streamTickBegin, streamTickGate, hs, hp, hn]
  · intro h
    have hb : streamTickBegin st u now = none := by
      simp [streamTickBegin, h]
    simp [streamTick, hb, h]
  · intro hg hp
    have hb : streamTickBegin st u now = none := by
      simp [streamTickBegin, hg, hp]
    simp [streamTick, hb, hg]
  · intro st1 h
    have hfields : st1.pendingPhotoRequest u = some true ∧
        st1.nextPhotoTime u = some (now + 30000) := by
      unfold streamTickBegin at h
      split at h
      · split at h
        · exact absurd h (by simp)
        · cases h
          constructor <;> simp [mapSet]
      · exact absurd h (by simp)
    refine ⟨hfields.1, hfields.2, ?_⟩
    unfold streamTick
    rw [h]
  · constructor <;> simp [streamTickFinish, cachePhoto, mapSet]
  · cases res with
    | none => simp [streamTickFinish, mapSet]
    | some q => simp [streamTickFinish, cachePhoto, mapSet]

/-- Concrete exercise of `C4_stream_tick_amended`: at time 2000 the
same state does attempt a capture. -/
theorem C4_stream_tick_amended_witness :
    truthy streamEligibleState.isStreamingPhotos "u" = true ∧
    2000 > (streamEligibleState.nextPhotoTime "u").getD 0 ∧
    truthy streamEligibleState.pendingPhotoRequest "u" = false ∧
    (streamTickBegin streamEligibleState "u" 2000).isSome = true :=
  ⟨by decide, by decide, by decide,
   (C4_stream_tick_amended streamEligibleState emptyState "u" 2000 0
      { requestId := "r", buffer := [], timestamp := 0,
        mimeType := "m", filename := "f", size := 0 } none).1.mpr
     ⟨by decide, by decide, by decide⟩⟩

/-- C2 as stated is false on the code: with note-recording active and
an empty buffer, a final transcription saying "end note" does not reset
the recording flag (it stays `some true`) and no acknowledgement is
spoken — `endVoiceNote` returns early. -/
theorem C2_claim_counterexample :
    truthy emptyBufferRecordingState.isRecordingNote "u" = true ∧
    strIncludes (jsTrim (jsToLower "end note")) "end note" = true ∧
    (onTranscriptionFinal emptyBufferRecordingState "u" "end note" true
        "ts" { photo := none, notionOk := true }).1.isRecordingNote "u" =
      some true ∧
    (onTranscriptionFinal emptyBufferRecordingState "u" "end note" true
        "ts" { photo := none, notionOk := true }).2 = [] := by
  refine ⟨by decide, by decide, by decide, by decide⟩

/-- C2 (amended): while note-recording is active, a final transcription
containing an end phrase with a non-empty (trimmed) buffer persists the
buffer and, when the persistence call succeeds, resets the recording
flag, clears the buffer and speaks an acknowledgement (on a failed call
the state is unchanged and recording stays active); with an empty or
whitespace-only buffer the end phrase changes nothing and recording
stays active; any other final phrase is appended to the buffer,
space-joined, and recording continues. -/
theorem C2_note_recording_amended (st : AppState) (u text : String)
    (saveOk : Bool) (ts : String) (cam : CaptureOracle)
    (hrec : truthy st.isRecordingNote u = true) :
    ((strIncludes (jsTrim (jsToLower text)) "end note" ||
        strIncludes (jsTrim (jsToLower text)) "endnote" ||
        strIncludes (jsTrim (jsToLower text)) "stop note") = true →
      (jsTrim ((st.noteBuffer u).getD "") ≠ "" → saveOk = true →
        onTranscriptionFinal st u text saveOk ts cam =
          ({ st with
             isRecordingNote := mapSet st.isRecordingNote u false
             noteBuffer := mapSet st.noteBuffer u "" },
           [Effect.saveNote
              (formatVoiceNote ts ((st.noteBuffer u).getD "")),
            Effect.speak "Got it"])) ∧
      (jsTrim ((st.noteBuffer u).getD "") ≠ "" → saveOk = false →
        onTranscriptionFinal st u text saveOk ts cam =
          (st,
           [Effect.saveNote
              (formatVoiceNote ts ((st.noteBuffer u).getD ""))])) ∧
      (jsTrim ((st.noteBuffer u).getD "") = "" →
        onTranscriptionFinal st u text saveOk ts cam = (st, []))) ∧
    ((strIncludes (jsTrim (jsToLower text)) "end note" ||
        strIncludes (jsTrim (jsToLower text)) "endnote" ||
        strIncludes (jsTrim (jsToLower text)) "stop note") = false →
      onTranscriptionFinal st u text saveOk ts cam =
        (accumulateNoteText st u (jsTrim text), []) ∧
      (accumulateNoteText st u (jsTrim text)).noteBuffer u =
        some (if (st.noteBuffer u).getD "" = "" then jsTrim text
              else (st.noteBuffer u).getD "" ++ " " ++ jsTrim text) ∧
      (accumulateNoteText st u (jsTrim text)).isRecordingNote u =
        st.isRecordingNote u) := by
  constructor
  · intro hend
    refine ⟨?_, ?_, ?_⟩
    · intro hb hs
      subst hs
      simp only [onTranscriptionFinal, hrec, if_true]
      rw [hend]
      simp [endVoiceNote, hb]
    · intro hb hs
      subst hs
      simp only [onTranscriptionFinal, hrec, if_true]
      rw [hend]
      simp [endVoiceNote, hb]
    · intro hb
      simp only [onTranscriptionFinal, hrec, if_true]
      rw [hend]
      simp [endVoiceNote, hb]
  · intro hend
    refine ⟨?_, ?_, rfl⟩
    · simp only [onTranscriptionFinal, hrec, if_true]
      rw [hend]
      simp
    · unfold accumulateNoteText
      by_cases hcb : (st.noteBuffer u).getD "" = ""
      · simp [mapSet, hcb, string_empty_append]
      · simp [mapSet, hcb]

/-- Concrete exercise of `C2_note_recording_amended`: saying "end note"
with buffer "hello" persists the note, resets the state and speaks an
acknowledgement. -/
theorem C2_note_recording_amended_witness :
    truthy recordingState.isRecordingNote "u" = true ∧
    (strIncludes (jsTrim (jsToLower "end note")) "end note" ||
      strIncludes (jsTrim (jsToLower "end note")) "endnote" ||
      strIncludes (jsTrim (jsToLower "end note")) "stop note") = true ∧
    jsTrim ((recordingState.noteBuffer "u").getD "") ≠ "" ∧
    onTranscriptionFinal recordingState "u" "end note" true "ts"
        { photo := none, notionOk := true } =
      ({ recordingState with
         isRecordingNote := mapSet recordingState.isRecordingNote "u" false
         noteBuffer := mapSet recordingState.noteBuffer "u" "" },
       [Effect.saveNote
          (formatVoiceNote "ts" ((recordingState.noteBuffer "u").getD "")),
        Effect.speak "Got it"]) :=
  ⟨by decide, by decide, by decide,
   ((C2_note_recording_amended recordingState "u" "end note" true "ts"
       { photo := none, notionOk := true } (by decide)).1
     (by decide)).1 (by decide) rfl⟩

/-- C10: with note-recording active, ending the note resets the
recording flag and clears the buffer exactly when the trimmed buffer
was non-empty and the persistence call succeeded; with an empty buffer
or a failed persistence call the state is left entirely unchanged. -/
theorem C10_end_note_reset_iff (st : AppState) (u : String)
    (saveOk : Bool) (ts : String)
    (hrec : st.isRecordingNote u = some true) :
    (((endVoiceNote st u saveOk ts).1.isRecordingNote u = some false ∧
      (endVoiceNote st u saveOk ts).1.noteBuffer u = some "") ↔
     (jsTrim ((st.noteBuffer u).getD "") ≠ "" ∧ saveOk = true)) ∧
    ((jsTrim ((st.noteBuffer u).getD "") = "" ∨ saveOk = false) →
      (endVoiceNote st u saveOk ts).1 = st) := by
  by_cases hb : jsTrim ((st.noteBuffer u).getD "") = ""
  · have he : endVoiceNote st u saveOk ts = (st, []) := by
      simp [endVoiceNote, hb]
    rw [he]
    constructor
    · constructor
      · intro hx
        rw [hrec] at hx
        simp at hx
      · intro hx
        exact absurd hb hx.1
    · intro _
      rfl
  · cases saveOk with
    | true =>
        have he : (endVoiceNote st u true ts).1 =
            { st with
              isRecordingNote := mapSet st.isRecordingNote u false
              noteBuffer := mapSet st.noteBuffer u "" } := by
          simp [endVoiceNote, hb]
        rw [he]
        constructor
        · constructor
          · intro _
            exact ⟨hb, rfl⟩
          · intro _
            constructor <;> simp [mapSet]
        · intro hx
          rcases hx with hx | hx
          · exact absurd hx hb
          · exact absurd hx (by simp)
    | false =>
        have he : (endVoiceNote st u false ts).1 = st := by
          simp [endVoiceNote, hb]
        rw [he]
        constructor
        · constructor
          · intro hx
            rw [hrec] at hx
            simp at hx
          · intro hx
            exact absurd hx.2 (by simp)
        · intro _
          rfl

/-- Concrete exercise of `C10_end_note_reset_iff`: ending a note with
buffer "hello" and a successful save resets the flag and clears the
buffer. -/
theorem C10_end_note_reset_iff_witness :
    recordingState.isRecordingNote "u" = some true ∧
    jsTrim ((recordingState.noteBuffer "u").getD "") ≠ "" ∧
    (endVoiceNote recordingState "u" true "ts").1.isRecordingNote "u" =
      some false ∧
    (endVoiceNote recordingState "u" true "ts").1.noteBuffer "u" =
      some "" :=
  ⟨by decide, by decide,
   ((C10_end_note_reset_iff recordingState "u" true "ts"
       (by decide)).1.mpr ⟨by decide, rfl⟩).1,
   ((C10_end_note_reset_iff recordingState "u" true "ts"
       (by decide)).1.mpr ⟨by decide, rfl⟩).2⟩
